import Mathlib

/-!
Verification of the chess.com rating-analysis script (`chess.com_API.py`).

The script's analysis core is embedded shallowly:

* raw game records and the per-game rating selection of
  `analyze_rating_progression` (lines 90-102);
* the DataFrame construction of lines 117-127 (sort by date, `diff`,
  `range`, two window-20 rolling means);
* `find_rating_plateaus` (lines 165-193);
* `calculate_progress_metrics` (lines 196-210).

pandas behaviour that the script relies on is modelled from pandas'
documented semantics:

* `Series.diff()` puts a missing value (NaN) at index 0 and the successive
  difference elsewhere; missing values are modelled as `none`.
* `Series.rolling(window=w).mean()` uses `min_periods = w` by default: the
  value at index `i` is defined only when the trailing window of `w` slots
  exists (`i + 1 ≥ w`) and every slot holds a non-missing value (a NaN slot
  does not count towards `min_periods`); otherwise the result is NaN.
* `rolling(window=w)` raises `ValueError` ("window must be an integer 0 or
  greater") exactly when `w` is negative; `w = 0` is accepted and `.mean()`
  then yields an all-NaN column.
* `DataFrame.sort_values(column)` uses the `quicksort` kind by default,
  which is NOT a stable sort: the output is some permutation of the rows
  that is non-decreasing in the sort column, with no guarantee on the
  relative order of rows with equal keys.  The sort is therefore embedded
  as a relation.
* `datetime.fromtimestamp` is strictly monotone in the epoch-second
  argument, so dates are represented by the epoch seconds themselves.

Ratings are machine integers in the source and are modelled as `Int`;
rolling means and averages are exact rationals (`ℚ`) standing for the
floating-point values the script computes.
-/

set_option maxRecDepth 10000

deriving instance DecidableEq for Except

/-- One raw game object of a monthly archive, with the fields the script
reads: `end_time` (epoch seconds), `white`/`black` username and rating, and
`time_control`. -/
structure Game where
  end_time : Int
  white_username : String
  white_rating : Int
  black_username : String
  black_rating : Int
  time_control : String
deriving DecidableEq

/-- One entry of `rating_history` (lines 98-102): date (epoch seconds, see
the header note on `fromtimestamp`), the selected rating, and the
time-control label. -/
structure Rec where
  date : Int
  rating : Int
  time_control : String
deriving DecidableEq

/-- Python's `str.lower()`, applied characterwise to the string's
characters (this coincides with Python on the ASCII usernames the
chess.com API serves). -/
def pyLower (s : String) : String := ⟨s.data.map Char.toLower⟩

/-- Rating selection of lines 93-96: if the white username matches the
queried username case-insensitively, take white's rating, `else` take
black's rating.  There is no further check on the black side. -/
def selectRating (username : String) (g : Game) : Int :=
  if pyLower g.white_username = pyLower username then g.white_rating
  else g.black_rating

/-- Spec-side rating selection, following §4.1 of the spec: select the
rating of whichever side matches case-insensitively, and signal a
`DataIntegrity` error when neither side matches.  Written for comparison
with `selectRating`, the definition taken from the source. -/
def selectRatingSpec (username : String) (g : Game) : Except String Int :=
  if pyLower g.white_username = pyLower username then .ok g.white_rating
  else if pyLower g.black_username = pyLower username then .ok g.black_rating
  else .error "DataIntegrity"

/-- The `rating_history` list built by lines 90-102: one record per game,
in archive order, with the rating chosen by `selectRating`. -/
def buildHistory (username : String) (games : List Game) : List Rec :=
  games.map fun g =>
    { date := g.end_time, rating := selectRating username g,
      time_control := g.time_control }

/-- `df.sort_values('date')` (line 121) with the default `quicksort` kind,
embedded as a relation: the output is some permutation of the input that is
non-decreasing in `date`.  pandas documents that only the `mergesort` and
`stable` kinds are stable, so no stability constraint is part of the
relation. -/
def sortValuesRel (l out : List Rec) : Prop :=
  List.Perm l out ∧ List.Chain' (fun a b => a.date ≤ b.date) out

/-- The Series Builder end to end: raw games to a sorted record list
(lines 90-102 followed by line 121). -/
def buildSeries (username : String) (games : List Game) (out : List Rec) : Prop :=
  sortValuesRel (buildHistory username games) out

/-- `Series.diff()` (line 122): `none` at index 0, the successive
difference elsewhere.  The script's rating column holds integers, so every
difference from index 1 on is defined. -/
def seriesDiff (ratings : List Int) : List (Option ℚ) :=
  match ratings with
  | [] => []
  | r :: rest =>
      none :: (List.zipWith (fun a b => ((a - b : Int) : ℚ)) rest (r :: rest)).map
        (fun d => some d)

/-- `Series.rolling(window=w).mean()` for a non-negative window `w`, with
the default `min_periods = w`: at index `i` the trailing window is the
slice `xs[i+1-w .. i]`; the mean is defined only when that window holds `w`
non-missing values (hence only when `i + 1 ≥ w` and no slot is `none`);
for `w = 0` no window ever holds an observation and every entry is
`none`.  `rollingWindowVals w xs i` is the list of non-missing values in
the trailing window of `w` slots ending at index `i`. -/
def rollingWindowVals (w : Nat) (xs : List (Option ℚ)) (i : Nat) : List ℚ :=
  ((xs.take (i + 1)).drop (i + 1 - w)).filterMap id

/-- See `rollingWindowVals`: the rolling mean column itself. -/
def rollingMean (w : Nat) (xs : List (Option ℚ)) : List (Option ℚ) :=
  (List.range xs.length).map fun i =>
    if w ≤ (rollingWindowVals w xs i).length ∧ 0 < (rollingWindowVals w xs i).length
    then some ((rollingWindowVals w xs i).sum / ((rollingWindowVals w xs i).length : ℚ))
    else none

/-- `Series.rolling(window=w).mean()` including pandas' window validation:
a negative window raises `ValueError` ("window must be an integer 0 or
greater"), which the spec's taxonomy calls `InvalidWindow`. -/
def rollingMeanE (w : Int) (xs : List (Option ℚ)) : Except String (List (Option ℚ)) :=
  if w < 0 then .error "InvalidWindow" else .ok (rollingMean w.toNat xs)

/-- Line 126: 20-game rolling mean of the rating column, generalised over
the window size (the script instantiates `w = 20`). -/
def rollingRatingCol (w : Nat) (ratings : List Int) : List (Option ℚ) :=
  rollingMean w (ratings.map fun (r : Int) => some ((r : ℚ)))

/-- Line 127: rolling mean of the `rating_change` column, generalised over
the window size (the script instantiates `w = 20`). -/
def rollingDeltaCol (w : Nat) (ratings : List Int) : List (Option ℚ) :=
  rollingMean w (seriesDiff ratings)

/-- The analysis DataFrame after lines 117-127: parallel columns indexed by
row position.  `rolling_change` is the column `find_rating_plateaus` adds
on line 168; it is absent (`none`) until that function runs. -/
structure DataFrame where
  date : List Int
  rating : List Int
  time_control : List String
  rating_change : List (Option ℚ)
  games_played : List Nat
  rolling_rating : List (Option ℚ)
  rating_change_rate : List (Option ℚ)
  rolling_change : Option (List (Option ℚ)) := none
deriving DecidableEq

/-- Lines 117-127 applied to the (already sorted) record list: build the
DataFrame columns, `rating_change = rating.diff()`, `games_played =
range(len(df))`, and the two window-20 rolling columns. -/
def makeDF (recs : List Rec) : DataFrame :=
  { date := recs.map (·.date)
    rating := recs.map (·.rating)
    time_control := recs.map (·.time_control)
    rating_change := seriesDiff (recs.map (·.rating))
    games_played := List.range recs.length
    rolling_rating := rollingRatingCol 20 (recs.map (·.rating))
    rating_change_rate := rollingDeltaCol 20 (recs.map (·.rating))
    rolling_change := none }

/-- Well-formedness of an analysis DataFrame: all columns have the length
of the rating column and `games_played` is `range(len(df))` (line 123).
Every DataFrame produced by lines 117-127 satisfies this. -/
def DataFrame.WF (df : DataFrame) : Prop :=
  df.date.length = df.rating.length ∧
  df.time_control.length = df.rating.length ∧
  df.rating_change.length = df.rating.length ∧
  df.games_played = List.range df.rating.length ∧
  df.rolling_rating.length = df.rating.length ∧
  df.rating_change_rate.length = df.rating.length

instance (df : DataFrame) : Decidable df.WF := by
  unfold DataFrame.WF; infer_instance

/-- The fields of one row that `find_rating_plateaus` reads via
`df.iterrows()`. -/
structure Row where
  rating : Int
  games : Nat
  date : Int
  rc : Option ℚ
deriving DecidableEq

/-- The open-plateau accumulator `current_plateau` (lines 175-179). -/
structure OpenPlateau where
  start_rating : Int
  start_game : Nat
  start_date : Int
deriving DecidableEq

/-- One emitted plateau (lines 181-190). -/
structure Plateau where
  start_rating : Int
  end_rating : Int
  games_span : Int
  start_game_number : Nat
  end_game_number : Nat
  start_date : Int
  end_date : Int
deriving DecidableEq

/-- The test `abs(rolling_change) < threshold` of line 173 on one cell
value: a NaN compares false, so an undefined value never qualifies. -/
def qualVal (threshold : ℚ) (o : Option ℚ) : Bool :=
  match o with
  | some v => decide (|v| < threshold)
  | none => false

/-- The test of line 173 on a row. -/
def qual (threshold : ℚ) (row : Row) : Bool := qualVal threshold row.rc

/-- The plateau record appended on lines 181-190, from the open accumulator
and the breaking row. -/
def mkPlateau (c : OpenPlateau) (row : Row) : Plateau :=
  { start_rating := c.start_rating
    end_rating := row.rating
    games_span := (row.games : Int) - (c.start_game : Int)
    start_game_number := c.start_game
    end_game_number := row.games
    start_date := c.start_date
    end_date := row.date }

/-- The `for index, row in df.iterrows()` loop of lines 172-191: qualifying
rows open a plateau when none is open; a non-qualifying row closes and
emits the open plateau, if any.  Whatever is still open when the rows run
out is dropped. -/
def plateauLoop (threshold : ℚ) : List Row → Option OpenPlateau → List Plateau
  | [], _ => []
  | row :: rest, cur =>
      if qual threshold row then
        match cur with
        | none =>
            plateauLoop threshold rest (some ⟨row.rating, row.games, row.date⟩)
        | some c => plateauLoop threshold rest (some c)
      else
        match cur with
        | some c => mkPlateau c row :: plateauLoop threshold rest none
        | none => plateauLoop threshold rest none

/-- The row sequence `df.iterrows()` yields, given the freshly computed
`rolling_change` column `rc`: one row per index, carrying the column values
at that index. -/
def dfRows (df : DataFrame) (rc : List (Option ℚ)) : List Row :=
  (List.range df.rating.length).map fun i =>
    { rating := df.rating.getD i 0
      games := df.games_played.getD i 0
      date := df.date.getD i 0
      rc := rc.getD i none }

/-- A plateau `p` anchored at index `i` and closed at index `j` of the row
list: row `i` qualifies and provides the start fields, row `j` is the first
non-qualifying row after `i` (every row in between qualifies) and provides
the end fields. -/
def ClosedPlateauAt (t : ℚ) (rows : List Row) (p : Plateau) (i j : Nat) : Prop :=
  ∃ ri rj, rows[i]? = some ri ∧ rows[j]? = some rj ∧
    qual t ri = true ∧ qual t rj = false ∧
    (∀ k rk, i ≤ k → k < j → rows[k]? = some rk → qual t rk = true) ∧
    p = mkPlateau ⟨ri.rating, ri.games, ri.date⟩ rj

/-- A plateau `p` that closes the accumulator `c`, open on entry to the
scan, at index `j`: the first `j` rows all qualify, row `j` does not and
provides the end fields. -/
def ClosesCurAt (t : ℚ) (rows : List Row) (c : OpenPlateau) (p : Plateau) (j : Nat) :
    Prop :=
  ∃ rj, rows[j]? = some rj ∧ qual t rj = false ∧
    (∀ k rk, k < j → rows[k]? = some rk → qual t rk = true) ∧
    p = mkPlateau c rj

/-- `find_rating_plateaus(df, window, threshold)` (lines 165-193): assign
`df['rolling_change']` (line 168, raising pandas' `ValueError` for a
negative window), then scan the rows.  The mutation of the caller's frame
is modelled by returning the updated frame alongside the plateau list. -/
def find_rating_plateaus (df : DataFrame) (window : Int) (threshold : ℚ) :
    Except String (DataFrame × List Plateau) :=
  match rollingMeanE window df.rating_change with
  | .error e => .error e
  | .ok rc =>
      .ok ({ df with rolling_change := some rc },
           plateauLoop threshold (dfRows df rc) none)

/-- The metrics dictionary of lines 199-208.  `rating_volatility` in the
source is `df['rating'].std()`, the sample standard deviation (`ddof = 1`);
its square, the sample variance, is recorded here to stay inside `ℚ`
(pandas returns NaN for fewer than two rows, modelled as `none`). -/
structure Metrics where
  total_games : Nat
  initial_rating : Int
  final_rating : Int
  total_gain : Int
  average_gain_per_game : ℚ
  max_rating : Int
  min_rating : Int
  rating_volatility_sq : Option ℚ
deriving DecidableEq

/-- `calculate_progress_metrics(df)` (lines 196-210).  `iloc[0]` /
`iloc[-1]` raise on an empty frame, modelled by `none`. -/
def calculate_progress_metrics (df : DataFrame) : Option Metrics :=
  match df.rating.head?, df.rating.getLast? with
  | some first, some last =>
      let n := df.rating.length
      let mean : ℚ := ((df.rating.map fun (r : Int) => (r : ℚ)).sum) / (n : ℚ)
      some
        { total_games := n
          initial_rating := first
          final_rating := last
          total_gain := last - first
          average_gain_per_game := ((last - first : Int) : ℚ) / (n : ℚ)
          max_rating := df.rating.foldl max first
          min_rating := df.rating.foldl min first
          rating_volatility_sq :=
            if 2 ≤ n then
              some (((df.rating.map fun (r : Int) => ((r : ℚ) - mean) ^ 2).sum) /
                ((n : ℚ) - 1))
            else none }
  | _, _ => none

/-! Concrete inputs used by the scenario claim and by the instantiations of
the quantified theorems below. -/

/-- The §8 test scenario: seven records with ratings
`[1000, 1010, 1005, 1020, 1022, 1021, 1023]` (dates ascending, one
time-control label). -/
def recsS : List Rec :=
  [⟨10, 1000, "blitz"⟩, ⟨20, 1010, "blitz"⟩, ⟨30, 1005, "blitz"⟩,
   ⟨40, 1020, "blitz"⟩, ⟨50, 1022, "blitz"⟩, ⟨60, 1021, "blitz"⟩,
   ⟨70, 1023, "blitz"⟩]

/-- The DataFrame lines 117-127 build from `recsS`. -/
def dfS : DataFrame := makeDF recsS

/-- The `rolling_change` column of `dfS` for window 2. -/
def rcS2 : List (Option ℚ) :=
  [none, none, some (5 / 2 : ℚ), some 5, some (17 / 2 : ℚ),
   some (1 / 2 : ℚ), some (1 / 2 : ℚ)]

/-- The `rolling_change` column of `dfS` for window 3. -/
def rcS3 : List (Option ℚ) :=
  [none, none, none, some (20 / 3 : ℚ), some 4, some (16 / 3 : ℚ), some 1]

/-- The plateau `find_rating_plateaus dfS 2 3` emits: opened at row 2
(rating 1005), closed by row 3 (rating 1020, rolling change 5 ≥ 3). -/
def plS : Plateau :=
  { start_rating := 1005, end_rating := 1020, games_span := 1,
    start_game_number := 2, end_game_number := 3,
    start_date := 30, end_date := 40 }

/-- The metrics of `dfS`. -/
def mS : Metrics :=
  { total_games := 7, initial_rating := 1000, final_rating := 1023,
    total_gain := 23, average_gain_per_game := (23 / 7 : ℚ),
    max_rating := 1023, min_rating := 1000,
    rating_volatility_sq := some (1826 / 21 : ℚ) }

/-- A game record in which neither side is the queried player "carol". -/
def gCE : Game :=
  { end_time := 100, white_username := "Alice", white_rating := 1500,
    black_username := "Bob", black_rating := 1600, time_control := "blitz" }

/-- First of two games of player "Alice" ending at the same instant. -/
def gA : Game :=
  { end_time := 100, white_username := "Alice", white_rating := 1000,
    black_username := "Zed", black_rating := 900, time_control := "blitz" }

/-- Second of two games of player "Alice" ending at the same instant. -/
def gB : Game :=
  { end_time := 100, white_username := "Alice", white_rating := 1010,
    black_username := "Yan", black_rating := 905, time_control := "blitz" }

/-- The record `buildHistory` produces from `gA` for "alice". -/
def rA : Rec := { date := 100, rating := 1000, time_control := "blitz" }

/-- The record `buildHistory` produces from `gB` for "alice". -/
def rB : Rec := { date := 100, rating := 1010, time_control := "blitz" }

/-! Theorems. -/

/-- C1 (amended): lines 93-96 select white's rating when the white username
matches case-insensitively and black's rating in every other case — in
particular, a record matching neither side silently gets black's rating,
where the spec-side `selectRatingSpec` signals `DataIntegrity`; a record
where exactly one side matches gets that side's rating. -/
theorem selectRating_matching_side (u : String) (g : Game) :
    (pyLower g.white_username = pyLower u → selectRating u g = g.white_rating) ∧
    (pyLower g.white_username ≠ pyLower u ∧ pyLower g.black_username = pyLower u →
      selectRating u g = g.black_rating) ∧
    (pyLower g.white_username ≠ pyLower u ∧ pyLower g.black_username ≠ pyLower u →
      selectRating u g = g.black_rating ∧
      selectRatingSpec u g = .error "DataIntegrity") := by
  unfold selectRating selectRatingSpec
  by_cases hw : pyLower g.white_username = pyLower u
  · simp [hw]
  · by_cases hb : pyLower g.black_username = pyLower u <;> simp [hw, hb]

/-- C1 witness: for the queried name "bob" only the black side of `gCE`
matches, and black's rating is selected. -/
theorem selectRating_matching_side_w :
    selectRating "bob" gCE = gCE.black_rating :=
  (selectRating_matching_side "bob" gCE).2.1 (by decide)

/-- C1 counterexample: in `gCE` neither side's username matches "carol"
case-insensitively, yet the code silently selects black's rating (1600)
where the spec demands a `DataIntegrity` error. -/
theorem selectRating_neither_matches_cex :
    pyLower gCE.white_username ≠ pyLower "carol" ∧
    pyLower gCE.black_username ≠ pyLower "carol" ∧
    selectRating "carol" gCE = 1600 ∧
    selectRatingSpec "carol" gCE = .error "DataIntegrity" := by
  decide

/-- C2: on the seven-record series `[1000, 1010, 1005, 1020, 1022, 1021,
1023]` with window 3 and threshold 3, the deltas are
`[-, 10, -5, 15, 2, -1, 2]`, the trailing window-3 means of the deltas are
defined from index 3 on with values `[20/3, 4, 16/3, 1]`, and since the
only strict-magnitude qualifier (`|1| < 3` at the last row) opens a plateau
that nothing closes, the emitted plateau list is exactly empty — matching
the hand-applied §4.3 algorithm. -/
theorem plateau_scenario_seven_games :
    (seriesDiff (recsS.map (·.rating)) =
      [none, some 10, some (-5), some 15, some 2, some (-1), some 2]) ∧
    (rollingMean 3 (seriesDiff (recsS.map (·.rating))) = rcS3) ∧
    (rcS3 = [none, none, none, some (20 / 3 : ℚ), some 4, some (16 / 3 : ℚ),
             some 1]) ∧
    find_rating_plateaus dfS 3 3 = .ok ({ dfS with rolling_change := some rcS3 }, []) :=
  of_decide_eq_true (by with_unfolding_all rfl)

/-- C6: the Metrics Summarizer's `total_gain` is final minus initial
rating, and `average_gain_per_game` divides the gain by the total record
count `N` (`len(df)`, line 204), not by `N - 1`. -/
theorem metrics_gain_convention (df : DataFrame) (m : Metrics)
    (h : calculate_progress_metrics df = some m) :
    m.total_gain = m.final_rating - m.initial_rating ∧
    m.total_games = df.rating.length ∧
    m.average_gain_per_game = (m.total_gain : ℚ) / (m.total_games : ℚ) := by
  unfold calculate_progress_metrics at h
  cases hh : df.rating.head? with
  | none => rw [hh] at h; simp at h
  | some first =>
    cases hl : df.rating.getLast? with
    | none => rw [hh, hl] at h; simp at h
    | some last =>
      rw [hh, hl] at h
      simp only [Option.some.injEq] at h
      subst h
      exact ⟨rfl, rfl, rfl⟩

/-- C6 witness: the metrics of the seven-record frame `dfS`. -/
theorem metrics_gain_convention_w :
    mS.total_gain = mS.final_rating - mS.initial_rating ∧
    mS.total_games = dfS.rating.length ∧
    mS.average_gain_per_game = (mS.total_gain : ℚ) / (mS.total_games : ℚ) :=
  metrics_gain_convention dfS mS (of_decide_eq_true (by with_unfolding_all rfl))

/-- C10: `find_rating_plateaus` writes the `rolling_change` column of the
frame passed to it (line 168) — the returned frame carries `rolling_change
= rating_change.rolling(window).mean()` — and every other column (date,
rating, time_control, rating_change, games_played, rolling_rating,
rating_change_rate) is left unchanged. -/
theorem find_rating_plateaus_frame (df : DataFrame) (w : Int) (t : ℚ)
    (df' : DataFrame) (ps : List Plateau)
    (h : find_rating_plateaus df w t = .ok (df', ps)) :
    df'.date = df.date ∧ df'.rating = df.rating ∧
    df'.time_control = df.time_control ∧
    df'.rating_change = df.rating_change ∧
    df'.games_played = df.games_played ∧
    df'.rolling_rating = df.rolling_rating ∧
    df'.rating_change_rate = df.rating_change_rate ∧
    df'.rolling_change = some (rollingMean w.toNat df.rating_change) := by
  unfold find_rating_plateaus rollingMeanE at h
  by_cases hw : w < 0
  · rw [if_pos hw] at h; exact absurd h (by simp)
  · rw [if_neg hw] at h
    simp only [Except.ok.injEq, Prod.mk.injEq] at h
    obtain ⟨h1, h2⟩ := h
    subst h1
    exact ⟨rfl, rfl, rfl, rfl, rfl, rfl, rfl, rfl⟩

/-- C10 witness: running the detector on `dfS` with window 2 and threshold
3 rewrites `rolling_change` and nothing else. -/
theorem find_rating_plateaus_frame_w :
    ({ dfS with rolling_change := some rcS2 }).date = dfS.date ∧
    ({ dfS with rolling_change := some rcS2 }).rating = dfS.rating ∧
    ({ dfS with rolling_change := some rcS2 }).time_control = dfS.time_control ∧
    ({ dfS with rolling_change := some rcS2 }).rating_change = dfS.rating_change ∧
    ({ dfS with rolling_change := some rcS2 }).games_played = dfS.games_played ∧
    ({ dfS with rolling_change := some rcS2 }).rolling_rating = dfS.rolling_rating ∧
    ({ dfS with rolling_change := some rcS2 }).rating_change_rate =
      dfS.rating_change_rate ∧
    ({ dfS with rolling_change := some rcS2 }).rolling_change =
      some (rollingMean (2 : Int).toNat dfS.rating_change) :=
  find_rating_plateaus_frame dfS 2 3 { dfS with rolling_change := some rcS2 } [plS]
    (of_decide_eq_true (by with_unfolding_all rfl))

/-- C8: the Plateau Detector is idempotent — a second run on the frame the
first run returned, with the same window and threshold, returns the very
same frame and the very same plateau list (the detector recomputes
`rolling_change` from the untouched `rating_change` column). -/
theorem find_rating_plateaus_idempotent (df : DataFrame) (w : Int) (t : ℚ)
    (df1 : DataFrame) (ps : List Plateau)
    (h : find_rating_plateaus df w t = .ok (df1, ps)) :
    find_rating_plateaus df1 w t = .ok (df1, ps) := by
  unfold find_rating_plateaus rollingMeanE at h ⊢
  by_cases hw : w < 0
  · rw [if_pos hw] at h; exact absurd h (by simp)
  · rw [if_neg hw] at h ⊢
    simp only [Except.ok.injEq, Prod.mk.injEq] at h
    obtain ⟨h1, h2⟩ := h
    subst h1; subst h2
    rfl

/-- C8 witness: a second run of the detector on the output frame of
`find_rating_plateaus dfS 2 3` reproduces that frame and its single
plateau. -/
theorem find_rating_plateaus_idempotent_w :
    find_rating_plateaus { dfS with rolling_change := some rcS2 } 2 3 =
      .ok ({ dfS with rolling_change := some rcS2 }, [plS]) :=
  find_rating_plateaus_idempotent dfS 2 3 { dfS with rolling_change := some rcS2 }
    [plS] (of_decide_eq_true (by with_unfolding_all rfl))

/-! Rolling-window lemmas. -/

/-- Entry `i` of the rolling-mean column, for an in-range index. -/
theorem rollingMean_getD (w : Nat) (xs : List (Option ℚ)) (i : Nat)
    (hi : i < xs.length) :
    (rollingMean w xs).getD i none =
      (if w ≤ (rollingWindowVals w xs i).length ∧ 0 < (rollingWindowVals w xs i).length
       then some ((rollingWindowVals w xs i).sum / ((rollingWindowVals w xs i).length : ℚ))
       else none) := by
  unfold rollingMean
  rw [List.getD_eq_getElem?_getD, List.getElem?_map, List.getElem?_range hi]
  rfl

/-- A zero window, or a series shorter than the window, leaves every entry
of the rolling-mean column undefined. -/
theorem rollingMean_all_none (w : Nat) (xs : List (Option ℚ))
    (h : w = 0 ∨ xs.length < w) :
    rollingMean w xs = List.replicate xs.length none := by
  rw [List.eq_replicate_iff]
  refine ⟨by simp [rollingMean], ?_⟩
  intro b hb
  obtain ⟨i, hmem, rfl⟩ := List.mem_map.1 hb
  rcases h with h0 | hlt
  · subst h0
    have hdrop : rollingWindowVals 0 xs i = [] := by
      unfold rollingWindowVals
      rw [Nat.sub_zero, List.drop_eq_nil_of_le (by rw [List.length_take]; omega)]
      rfl
    rw [hdrop]
    simp
  · have hle : (rollingWindowVals w xs i).length ≤ xs.length := by
      unfold rollingWindowVals
      calc (((xs.take (i + 1)).drop (i + 1 - w)).filterMap id).length
          ≤ ((xs.take (i + 1)).drop (i + 1 - w)).length :=
            List.length_filterMap_le _ _
        _ ≤ (xs.take (i + 1)).length := by rw [List.length_drop]; omega
        _ ≤ xs.length := by rw [List.length_take]; omega
    exact if_neg (by omega)

/-- If no row qualifies and no plateau is open, the scan emits nothing. -/
theorem plateauLoop_of_no_qual (t : ℚ) (rows : List Row)
    (h : ∀ r ∈ rows, qual t r = false) : plateauLoop t rows none = [] := by
  induction rows with
  | nil => rfl
  | cons row rest ih =>
    have hr := h row (List.mem_cons_self row rest)
    rw [plateauLoop, if_neg (by simp [hr])]
    exact ih fun r hrm => h r (List.mem_cons_of_mem _ hrm)

/-- No row of a frame whose `rolling_change` column is all-undefined ever
qualifies. -/
theorem dfRows_replicate_no_qual (df : DataFrame) (n : Nat) (t : ℚ) :
    ∀ r ∈ dfRows df (List.replicate n none), qual t r = false := by
  intro r hr
  obtain ⟨i, hmem, rfl⟩ := List.mem_map.1 hr
  have hnone : (List.replicate n (none : Option ℚ)).getD i none = none := by
    rcases Nat.lt_or_ge i n with hin | hin
    · rw [List.getD_eq_getElem?_getD, List.getElem?_replicate, if_pos hin]; rfl
    · rw [List.getD_eq_getElem?_getD, List.getElem?_eq_none (by simpa using hin)]; rfl
  simp [qual, qualVal, hnone]

/-- C7 (amended): a negative window makes the rolling computation (and so
the Plateau Detector) fail with pandas' window `ValueError` — the spec's
`InvalidWindow`; window zero, and any series shorter than a positive
window, succeed and produce an all-undefined rolling column (and hence no
plateaus).  The claim's "fails for every W ≤ 0" is wrong at `W = 0`. -/
theorem window_validation (df : DataFrame) (w : Int) (t : ℚ) :
    (w < 0 → find_rating_plateaus df w t = .error "InvalidWindow") ∧
    (0 ≤ w → (w = 0 ∨ df.rating_change.length < w.toNat) →
      find_rating_plateaus df w t =
        .ok ({ df with
               rolling_change := some (List.replicate df.rating_change.length none) },
             [])) := by
  constructor
  · intro hw
    unfold find_rating_plateaus rollingMeanE
    rw [if_pos hw]
  · intro hw h0
    unfold find_rating_plateaus rollingMeanE
    rw [if_neg (by omega)]
    have hrc : rollingMean w.toNat df.rating_change =
        List.replicate df.rating_change.length none := by
      refine rollingMean_all_none _ _ ?_
      rcases h0 with h | h
      · left; omega
      · right; exact h
    rw [hrc]
    exact congrArg
      (fun l => Except.ok
        ({ df with
           rolling_change := some (List.replicate df.rating_change.length none) }, l))
      (plateauLoop_of_no_qual t _ (dfRows_replicate_no_qual df _ t))

/-- C7 witness: on the seven-record frame, window −2 raises `InvalidWindow`
while window 9 (longer than the series) succeeds with an all-undefined
rolling column and no plateaus. -/
theorem window_validation_w :
    find_rating_plateaus dfS (-2) 3 = .error "InvalidWindow" ∧
    find_rating_plateaus dfS 9 3 =
      .ok ({ dfS with
             rolling_change := some (List.replicate dfS.rating_change.length none) },
           []) :=
  ⟨(window_validation dfS (-2) 3).1 (by decide),
   (window_validation dfS 9 3).2 (by decide)
     (.inr (of_decide_eq_true (by with_unfolding_all rfl)))⟩

/-- C7 counterexample: window 0 is ≤ 0, yet the detector does not fail —
pandas accepts a zero window ("window must be an integer 0 or greater"
rejects only negatives) and yields an all-undefined rolling column. -/
theorem window_zero_accepted_cex :
    find_rating_plateaus dfS 0 3 =
      .ok ({ dfS with rolling_change := some (List.replicate 7 none) }, []) ∧
    rollingMeanE 0 dfS.rating_change = .ok (List.replicate 7 none) :=
  of_decide_eq_true (by with_unfolding_all rfl)

/-- Over an all-defined column, the non-missing window values are the
window slice itself. -/
theorem rollingWindowVals_map_some {α : Type} (f : α → ℚ) (l : List α) (w i : Nat) :
    rollingWindowVals w (l.map fun a => some (f a)) i =
      ((l.take (i + 1)).drop (i + 1 - w)).map f := by
  unfold rollingWindowVals
  rw [← List.map_take, ← List.map_drop, List.filterMap_map]
  have hcomp : (id ∘ fun a => some (f a)) = some ∘ f := rfl
  rw [hcomp, List.filterMap_eq_map]

/-- Length of the trailing window slice at an in-range index. -/
theorem length_window_slice {α : Type} (l : List α) (w i : Nat) (hi : i < l.length) :
    ((l.take (i + 1)).drop (i + 1 - w)).length = min w (i + 1) := by
  rw [List.length_drop, List.length_take]
  omega

/-- The window-`w` rolling mean of the (all-defined) rating column is
defined exactly from index `w - 1` on. -/
theorem rollingRatingCol_defined (ratings : List Int) (w : Nat) (hw : 0 < w)
    (i : Nat) (hi : i < ratings.length) :
    ((rollingRatingCol w ratings).getD i none).isSome = true ↔ w - 1 ≤ i := by
  unfold rollingRatingCol
  rw [rollingMean_getD w _ i (by rw [List.length_map]; exact hi)]
  rw [rollingWindowVals_map_some (fun (r : Int) => (r : ℚ)) ratings w i]
  rw [List.length_map, length_window_slice ratings w i hi]
  by_cases hcase : w ≤ i + 1
  · rw [if_pos ⟨by omega, by omega⟩]
    simp
    omega
  · rw [if_neg (by omega)]
    simp
    omega

/-- The delta column has the length of the rating column. -/
theorem seriesDiff_length (ratings : List Int) :
    (seriesDiff ratings).length = ratings.length := by
  cases ratings with
  | nil => rfl
  | cons r rest =>
    simp only [seriesDiff, List.length_cons, List.length_map, List.length_zipWith]
    omega

/-- The window-`w` rolling mean of the delta column is defined exactly from
index `w` on — one later than `rollingRatingCol`, because the delta at
index 0 is undefined. -/
theorem rollingDeltaCol_defined (ratings : List Int) (w : Nat) (hw : 0 < w)
    (i : Nat) (hi : i < ratings.length) :
    ((rollingDeltaCol w ratings).getD i none).isSome = true ↔ w ≤ i := by
  cases ratings with
  | nil => simp at hi
  | cons r rest =>
    have hixs : i < (seriesDiff (r :: rest)).length := by
      rw [seriesDiff_length]; exact hi
    unfold rollingDeltaCol
    rw [rollingMean_getD w _ i hixs]
    have hds : seriesDiff (r :: rest) =
        none :: (List.zipWith (fun a b => ((a - b : Int) : ℚ)) rest (r :: rest)).map
          (fun d => some d) := rfl
    set ds := List.zipWith (fun a b => ((a - b : Int) : ℚ)) rest (r :: rest) with hdsdef
    have hdsl : ds.length = rest.length := by
      rw [hdsdef, List.length_zipWith]; simp
    have hil : i ≤ rest.length := by
      have h2 := hi; rw [List.length_cons] at h2; omega
    by_cases hcase : w ≤ i
    · have h1 : i + 1 - w = (i - w) + 1 := by omega
      have hv : rollingWindowVals w (seriesDiff (r :: rest)) i =
          (ds.take i).drop (i - w) := by
        rw [hds]
        unfold rollingWindowVals
        rw [List.take_succ_cons, h1, List.drop_succ_cons]
        rw [← List.map_take, ← List.map_drop, List.filterMap_map]
        simp
      rw [hv]
      have hvl : ((ds.take i).drop (i - w)).length = w := by
        rw [List.length_drop, List.length_take]
        omega
      rw [hvl, if_pos ⟨le_refl w, hw⟩]
      simp [hcase]
    · have h0 : i + 1 - w = 0 := by omega
      have hv : rollingWindowVals w (seriesDiff (r :: rest)) i = ds.take i := by
        rw [hds]
        unfold rollingWindowVals
        rw [h0, List.drop_zero, List.take_succ_cons]
        rw [List.filterMap_cons_none, ← List.map_take, List.filterMap_map]
        · simp
        · rfl
      rw [hv]
      have hvl : (ds.take i).length ≤ i := List.length_take_le _ _
      rw [if_neg (by omega)]
      simp [hcase]

/-- C5: for every rating series and positive window `W`, `rolling_rating`
(line 126) is defined exactly at indices `i ≥ W − 1` and `rating_change_rate`
(line 127, the rolling mean of the deltas) exactly at indices `i ≥ W` — one
index later, because the delta at index 0 is undefined. -/
theorem rolling_columns_definedness (ratings : List Int) (w : Nat) (hw : 0 < w)
    (i : Nat) (hi : i < ratings.length) :
    (((rollingRatingCol w ratings).getD i none).isSome = true ↔ w - 1 ≤ i) ∧
    (((rollingDeltaCol w ratings).getD i none).isSome = true ↔ w ≤ i) :=
  ⟨rollingRatingCol_defined ratings w hw i hi,
   rollingDeltaCol_defined ratings w hw i hi⟩

set_option maxHeartbeats 2000000 in
/-- C5 witness: window 3 at index 4 of the seven-record series — both
columns defined there, with the boundary inequalities as stated. -/
theorem rolling_columns_definedness_w :
    (((rollingRatingCol 3 (recsS.map (·.rating))).getD 4 none).isSome = true ↔
      3 - 1 ≤ 4) ∧
    (((rollingDeltaCol 3 (recsS.map (·.rating))).getD 4 none).isSome = true ↔
      3 ≤ 4) :=
  rolling_columns_definedness (recsS.map (·.rating)) 3 (by decide) 4 (by decide)

/-- A non-qualifying head row closes the open accumulator on the spot. -/
theorem closesCurAt_here (t : ℚ) (row : Row) (rest : List Row) (c : OpenPlateau)
    (hq : qual t row = false) :
    ClosesCurAt t (row :: rest) c (mkPlateau c row) 0 := by
  refine ⟨row, List.getElem?_cons_zero, hq, ?_, rfl⟩
  intro k rk hk hget
  omega

/-- `ClosesCurAt` transports over a qualifying head row. -/
theorem closesCurAt_shift (t : ℚ) (row : Row) (rest : List Row) (c : OpenPlateau)
    (p : Plateau) (j : Nat) (hq : qual t row = true)
    (h : ClosesCurAt t rest c p j) : ClosesCurAt t (row :: rest) c p (j + 1) := by
  obtain ⟨rj, hj, hqj, hall, hpeq⟩ := h
  refine ⟨rj, by simpa using hj, hqj, ?_, hpeq⟩
  intro k rk hk hget
  cases k with
  | zero =>
    rw [List.getElem?_cons_zero] at hget
    injection hget with h2
    subst h2
    exact hq
  | succ k =>
    exact hall k rk (by omega) (by simpa using hget)

/-- `ClosedPlateauAt` transports over any head row. -/
theorem closedPlateauAt_shift (t : ℚ) (row : Row) (rest : List Row)
    (p : Plateau) (i j : Nat) (h : ClosedPlateauAt t rest p i j) :
    ClosedPlateauAt t (row :: rest) p (i + 1) (j + 1) := by
  obtain ⟨ri, rj, hi, hj, hqi, hqj, hall, hpeq⟩ := h
  refine ⟨ri, rj, by simpa using hi, by simpa using hj, hqi, hqj, ?_, hpeq⟩
  intro k rk hk1 hk2 hget
  cases k with
  | zero => omega
  | succ k => exact hall k rk (by omega) (by omega) (by simpa using hget)

/-- A qualifying head row that opens the accumulator anchors the plateau
that later closes it. -/
theorem closesCurAt_anchor (t : ℚ) (row : Row) (rest : List Row) (p : Plateau)
    (j : Nat) (hq : qual t row = true)
    (h : ClosesCurAt t rest ⟨row.rating, row.games, row.date⟩ p j) :
    ClosedPlateauAt t (row :: rest) p 0 (j + 1) := by
  obtain ⟨rj, hj, hqj, hall, hpeq⟩ := h
  refine ⟨row, rj, List.getElem?_cons_zero, by simpa using hj, hq, hqj, ?_, hpeq⟩
  intro k rk hk1 hk2 hget
  cases k with
  | zero =>
    rw [List.getElem?_cons_zero] at hget
    injection hget with h2
    subst h2
    exact hq
  | succ k =>
    exact hall k rk (by omega) (by simpa using hget)

/-- Unfolding of the scan at a cons cell. -/
theorem plateauLoop_cons (t : ℚ) (row : Row) (rest : List Row)
    (cur : Option OpenPlateau) :
    plateauLoop t (row :: rest) cur =
      if qual t row = true then
        (match cur with
         | none => plateauLoop t rest (some ⟨row.rating, row.games, row.date⟩)
         | some c => plateauLoop t rest (some c))
      else
        (match cur with
         | some c => mkPlateau c row :: plateauLoop t rest none
         | none => plateauLoop t rest none) := by
  cases cur <;> rfl

/-- Every plateau the scan emits either closes the accumulator open on
entry at the first break, or is anchored at a qualifying row and closed at
the first break after it. -/
theorem plateauLoop_mem (t : ℚ) (rows : List Row) :
    ∀ (cur : Option OpenPlateau) (p : Plateau), p ∈ plateauLoop t rows cur →
      (∃ c j, cur = some c ∧ ClosesCurAt t rows c p j) ∨
      (∃ i j, i < j ∧ ClosedPlateauAt t rows p i j) := by
  induction rows with
  | nil =>
    intro cur p hp
    simp [plateauLoop] at hp
  | cons row rest ih =>
    intro cur p hp
    by_cases hq : qual t row = true
    · rw [plateauLoop_cons, if_pos hq] at hp
      cases cur with
      | none =>
        rcases ih (some ⟨row.rating, row.games, row.date⟩) p hp with
          ⟨c, j, hc, hclose⟩ | ⟨i, j, hij, hclosed⟩
        · injection hc with hc2
          subst hc2
          exact .inr ⟨0, j + 1, Nat.succ_pos j,
            closesCurAt_anchor t row rest p j hq hclose⟩
        · exact .inr ⟨i + 1, j + 1, by omega,
            closedPlateauAt_shift t row rest p i j hclosed⟩
      | some c =>
        rcases ih (some c) p hp with ⟨c2, j, hc2, hclose⟩ | ⟨i, j, hij, hclosed⟩
        · injection hc2 with hc3
          subst hc3
          exact .inl ⟨c, j + 1, rfl, closesCurAt_shift t row rest c p j hq hclose⟩
        · exact .inr ⟨i + 1, j + 1, by omega,
            closedPlateauAt_shift t row rest p i j hclosed⟩
    · have hqf : qual t row = false := by
        cases hqe : qual t row
        · rfl
        · exact absurd hqe hq
      rw [plateauLoop_cons, if_neg (by simp [hqf])] at hp
      cases cur with
      | some c =>
        rcases List.mem_cons.1 hp with rfl | hp2
        · exact .inl ⟨c, 0, rfl, closesCurAt_here t row rest c hqf⟩
        · rcases ih none p hp2 with ⟨c2, j, hc2, _⟩ | ⟨i, j, hij, hclosed⟩
          · exact absurd hc2 (by simp)
          · exact .inr ⟨i + 1, j + 1, by omega,
              closedPlateauAt_shift t row rest p i j hclosed⟩
      | none =>
        rcases ih none p hp with ⟨c2, j, hc2, _⟩ | ⟨i, j, hij, hclosed⟩
        · exact absurd hc2 (by simp)
        · exact .inr ⟨i + 1, j + 1, by omega,
            closedPlateauAt_shift t row rest p i j hclosed⟩

/-- Row `i` of the frame's row sequence, for an in-range index. -/
theorem dfRows_getElem (df : DataFrame) (rc : List (Option ℚ)) (i : Nat)
    (hi : i < df.rating.length) :
    (dfRows df rc)[i]? =
      some { rating := df.rating.getD i 0, games := df.games_played.getD i 0,
             date := df.date.getD i 0, rc := rc.getD i none } := by
  unfold dfRows
  rw [List.getElem?_map, List.getElem?_range hi]
  rfl

/-- The row sequence has one row per record. -/
theorem dfRows_length (df : DataFrame) (rc : List (Option ℚ)) :
    (dfRows df rc).length = df.rating.length := by
  unfold dfRows
  rw [List.length_map, List.length_range]

/-- `getD` on `range`. -/
theorem getD_range (n i : Nat) (hi : i < n) : (List.range n).getD i 0 = i := by
  rw [List.getD_eq_getElem?_getD, List.getElem?_range hi]
  rfl

/-- A cell fails the line-173 test exactly when it is undefined or at least
the threshold in magnitude. -/
theorem qualVal_false_iff (t : ℚ) (o : Option ℚ) :
    qualVal t o = false ↔ (o = none ∨ ∃ v, o = some v ∧ t ≤ |v|) := by
  cases o with
  | none => simp [qualVal]
  | some v => simp [qualVal, not_lt]

/-- A cell passes the line-173 test exactly when it is defined and strictly
below the threshold in magnitude. -/
theorem qualVal_true_iff (t : ℚ) (o : Option ℚ) :
    qualVal t o = true ↔ ∃ v, o = some v ∧ |v| < t := by
  cases o with
  | none => simp [qualVal]
  | some v => simp [qualVal]

/-- Shared shape of every emitted plateau, in frame terms: indices
`i < j < n`; start fields from record `i`, end fields from record `j`;
record `j` fails the test and every record in `[i, j)` passes it. -/
theorem find_rating_plateaus_shape (df : DataFrame) (w : Int) (t : ℚ)
    (df' : DataFrame) (ps : List Plateau) (hwf : df.WF)
    (h : find_rating_plateaus df w t = .ok (df', ps)) :
    ∀ p ∈ ps, ∃ i j, i < j ∧ j < df.rating.length ∧
      p.start_rating = df.rating.getD i 0 ∧
      p.start_game_number = i ∧
      p.start_date = df.date.getD i 0 ∧
      p.end_rating = df.rating.getD j 0 ∧
      p.end_game_number = j ∧
      p.end_date = df.date.getD j 0 ∧
      p.games_span = (j : Int) - (i : Int) ∧
      qualVal t ((rollingMean w.toNat df.rating_change).getD j none) = false ∧
      (∀ k, i ≤ k → k < j →
        qualVal t ((rollingMean w.toNat df.rating_change).getD k none) = true) := by
  intro p hp
  unfold find_rating_plateaus rollingMeanE at h
  by_cases hw : w < 0
  · rw [if_pos hw] at h; exact absurd h (by simp)
  · rw [if_neg hw] at h
    simp only [Except.ok.injEq, Prod.mk.injEq] at h
    obtain ⟨h1, h2⟩ := h
    subst h2
    set rc := rollingMean w.toNat df.rating_change with hrc
    rcases plateauLoop_mem t (dfRows df rc) none p hp with
      ⟨c, j, hc, _⟩ | ⟨i, j, hij, hclosed⟩
    · exact absurd hc (by simp)
    · obtain ⟨ri, rj, hgi, hgj, hqi, hqj, hall, hpeq⟩ := hclosed
      have hjn : j < df.rating.length := by
        by_contra hcon
        have hnone : (dfRows df rc)[j]? = none :=
          List.getElem?_eq_none (by rw [dfRows_length]; omega)
        rw [hnone] at hgj
        exact absurd hgj (by simp)
      have hin : i < df.rating.length := lt_trans hij hjn
      rw [dfRows_getElem df rc i hin] at hgi
      rw [dfRows_getElem df rc j hjn] at hgj
      injection hgi with hgi2
      injection hgj with hgj2
      subst hgi2
      subst hgj2
      have hgames : df.games_played = List.range df.rating.length := hwf.2.2.2.1
      subst hpeq
      refine ⟨i, j, hij, hjn, rfl, ?_, rfl, rfl, ?_, rfl, ?_, hqj, ?_⟩
      · show df.games_played.getD i 0 = i
        rw [hgames]
        exact getD_range _ i hin
      · show df.games_played.getD j 0 = j
        rw [hgames]
        exact getD_range _ j hjn
      · show (df.games_played.getD j 0 : Int) - (df.games_played.getD i 0 : Int) =
          (j : Int) - (i : Int)
        rw [hgames, getD_range _ j hjn, getD_range _ i hin]
      · intro k hk1 hk2
        have hkn : k < df.rating.length := lt_trans hk2 hjn
        have := hall k _ hk1 hk2 (dfRows_getElem df rc k hkn)
        exact this

/-- C3: every emitted Plateau is explicitly closed: its end fields
(end_rating, end_game_number, end_date) come from a record `j` whose
rolling change is undefined or at least the threshold in magnitude, and `j`
is the first such record at or after the plateau's anchor `i` (every record
in `[i, j)` has a defined rolling change strictly below the threshold).  A
plateau still open when the series ends has no such record and is not
emitted. -/
theorem plateau_closed_by_first_break (df : DataFrame) (w : Int) (t : ℚ)
    (df' : DataFrame) (ps : List Plateau) (hwf : df.WF)
    (h : find_rating_plateaus df w t = .ok (df', ps)) :
    ∀ p ∈ ps, ∃ j, j < df.rating.length ∧ p.end_game_number = j ∧
      p.end_rating = df.rating.getD j 0 ∧ p.end_date = df.date.getD j 0 ∧
      ((rollingMean w.toNat df.rating_change).getD j none = none ∨
        ∃ v, (rollingMean w.toNat df.rating_change).getD j none = some v ∧
          t ≤ |v|) ∧
      ∃ i, i < j ∧ p.start_game_number = i ∧
        ∀ k, i ≤ k → k < j →
          ∃ v, (rollingMean w.toNat df.rating_change).getD k none = some v ∧
            |v| < t := by
  intro p hp
  obtain ⟨i, j, hij, hjn, hsr, hsg, hsd, her, heg, hed, hspan, hqj, hall⟩ :=
    find_rating_plateaus_shape df w t df' ps hwf h p hp
  exact ⟨j, hjn, heg, her, hed, (qualVal_false_iff t _).1 hqj, i, hij, hsg,
    fun k hk1 hk2 => (qualVal_true_iff t _).1 (hall k hk1 hk2)⟩

/-- C3 witness: on the seven-record frame with window 2 and threshold 3 the
single emitted plateau (rows 2 to 3) satisfies the closing-record
characterisation. -/
theorem plateau_closed_by_first_break_w :
    ∃ j, j < dfS.rating.length ∧ plS.end_game_number = j ∧
      plS.end_rating = dfS.rating.getD j 0 ∧ plS.end_date = dfS.date.getD j 0 ∧
      ((rollingMean (2 : Int).toNat dfS.rating_change).getD j none = none ∨
        ∃ v, (rollingMean (2 : Int).toNat dfS.rating_change).getD j none = some v ∧
          (3 : ℚ) ≤ |v|) ∧
      ∃ i, i < j ∧ plS.start_game_number = i ∧
        ∀ k, i ≤ k → k < j →
          ∃ v, (rollingMean (2 : Int).toNat dfS.rating_change).getD k none = some v ∧
            |v| < (3 : ℚ) :=
  plateau_closed_by_first_break dfS 2 3 { dfS with rolling_change := some rcS2 }
    [plS] (of_decide_eq_true (by with_unfolding_all rfl))
    (of_decide_eq_true (by with_unfolding_all rfl))
    plS (List.mem_cons_self plS [])

/-- C9: every emitted plateau spans at least one game — its start game
number is strictly below its end game number, because it is anchored at one
record and closed only at a strictly later one. -/
theorem plateau_span_positive (df : DataFrame) (w : Int) (t : ℚ)
    (df' : DataFrame) (ps : List Plateau) (hwf : df.WF)
    (h : find_rating_plateaus df w t = .ok (df', ps)) :
    ∀ p ∈ ps, p.start_game_number < p.end_game_number ∧ 1 ≤ p.games_span := by
  intro p hp
  obtain ⟨i, j, hij, hjn, hsr, hsg, hsd, her, heg, hed, hspan, hqj, hall⟩ :=
    find_rating_plateaus_shape df w t df' ps hwf h p hp
  constructor
  · rw [hsg, heg]; exact hij
  · rw [hspan]; omega

/-- C9 witness: the plateau emitted on the seven-record frame with window 2
and threshold 3 runs from game 2 to game 3, spanning one game. -/
theorem plateau_span_positive_w :
    plS.start_game_number < plS.end_game_number ∧ 1 ≤ plS.games_span :=
  plateau_span_positive dfS 2 3 { dfS with rolling_change := some rcS2 } [plS]
    (of_decide_eq_true (by with_unfolding_all rfl))
    (of_decide_eq_true (by with_unfolding_all rfl))
    plS (List.mem_cons_self plS [])

/-- C4 (amended): the Series Builder's output is a permutation of the
per-game records sorted non-decreasing by timestamp.  No stability
guarantee holds: `sort_values` defaults to `quicksort`, which pandas
documents as unstable, so the order among equal timestamps is unspecified
(see the counterexample `buildSeries_stability_cex`). -/
theorem buildSeries_sorted_perm (u : String) (games : List Game) (out : List Rec)
    (h : buildSeries u games out) :
    (∀ i j, i ≤ j → ∀ hj : j < out.length,
      (out.getD i ⟨0, 0, ""⟩).date ≤ (out.getD j ⟨0, 0, ""⟩).date) ∧
    List.Perm (buildHistory u games) out := by
  obtain ⟨hperm, hchain⟩ := h
  constructor
  · have hpair : List.Pairwise (fun a b : Rec => a.date ≤ b.date) out := by
      have htrans : IsTrans Rec (fun a b : Rec => a.date ≤ b.date) :=
        ⟨fun a b c hab hbc => le_trans hab hbc⟩
      exact List.chain'_iff_pairwise.mp hchain
    intro i j hij hj
    rcases eq_or_lt_of_le hij with rfl | hlt
    · exact le_refl _
    · have hi : i < out.length := lt_trans hlt hj
      have hget := List.pairwise_iff_getElem.mp hpair i j hi hj hlt
      have e1 : out.getD i ⟨0, 0, ""⟩ = out[i] := by
        rw [List.getD_eq_getElem?_getD, List.getElem?_eq_getElem hi]
        rfl
      have e2 : out.getD j ⟨0, 0, ""⟩ = out[j] := by
        rw [List.getD_eq_getElem?_getD, List.getElem?_eq_getElem hj]
        rfl
      rw [e1, e2]
      exact hget
  · exact hperm

/-- C4 witness: two same-instant games of "alice"; the identity permutation
of the built history satisfies the sort relation and is sorted. -/
theorem buildSeries_sorted_perm_w :
    (∀ i j, i ≤ j → ∀ hj : j < ([rA, rB] : List Rec).length,
      (([rA, rB] : List Rec).getD i ⟨0, 0, ""⟩).date ≤
        (([rA, rB] : List Rec).getD j ⟨0, 0, ""⟩).date) ∧
    List.Perm (buildHistory "alice" [gA, gB]) [rA, rB] :=
  buildSeries_sorted_perm "alice" [gA, gB] [rA, rB]
    ⟨by decide, List.chain'_cons.mpr ⟨by decide, List.chain'_singleton _⟩⟩

/-- C4 counterexample: the two games `gA`, `gB` end at the same instant and
are retrieved in that order, so the claimed stable sort could only output
`[rA, rB]`; but the unstable `sort_values('date')` admits the reversed
output `[rB, rA]` as well — equal-timestamp records need not keep their
retrieval order. -/
theorem buildSeries_stability_cex :
    buildHistory "alice" [gA, gB] = [rA, rB] ∧
    buildSeries "alice" [gA, gB] [rB, rA] ∧
    ([rB, rA] : List Rec) ≠ [rA, rB] := by
  refine ⟨by decide,
    ⟨?_, List.chain'_cons.mpr ⟨by decide, List.chain'_singleton _⟩⟩, by decide⟩
  show List.Perm (buildHistory "alice" [gA, gB]) [rB, rA]
  have h : buildHistory "alice" [gA, gB] = [rA, rB] := by decide
  rw [h]
  exact List.Perm.swap rB rA []
